import Mathlib

/-!
Shallow embedding of the Cloud Kitchen food-ordering core (app.py, models.py):
the session shopping cart, the cart view, the payment commit that turns a cart
plus staged checkout details into an Order with OrderItem line items, the
admin order-status update, and the customer tracking lookup.

Prices are modelled as rationals; the cart is the session dict `item_id ->
quantity` modelled as an association list in insertion order (Python dicts
preserve insertion order and have unique keys); the menu catalog and the
order ledger are lists queried by id.
-/

namespace CloudKitchen

/-- A menu item row (models.py, class MenuItem). -/
structure MenuItem where
  id : Nat
  name : String
  price : ℚ
  category : String
  available : Bool
deriving DecidableEq

/-- The catalog store: the menu_items table. -/
abbrev Catalog := List MenuItem

/-- The session cart: Python dict from item id to quantity, in insertion
order with unique keys. -/
abbrev Cart := List (Nat × Int)

/-- Primary-key lookup `MenuItem.query.get(id)`. -/
def MenuItem.query_get (catalog : Catalog) (id : Nat) : Option MenuItem :=
  catalog.find? (fun m => m.id == id)

/-- A flashed message (`flash(msg, category)` in Flask). -/
inductive Flash where
  | success : String → Flash
  | error : String → Flash
deriving DecidableEq

/-- Python `cart[item_key] += quantity` when the key is present, else
`cart[item_key] = quantity` appended at the end (app.py lines 335-338). -/
def cart_add_entry : Cart → Nat → Int → Cart
  | [], item_id, quantity => [(item_id, quantity)]
  | e :: rest, item_id, quantity =>
    if e.1 == item_id then (e.1, e.2 + quantity) :: rest
    else e :: cart_add_entry rest item_id quantity

/-- Python `cart[item_key] = quantity`: overwrite in place if the key is
present, else append (app.py line 369). -/
def cart_set_entry : Cart → Nat → Int → Cart
  | [], item_id, quantity => [(item_id, quantity)]
  | e :: rest, item_id, quantity =>
    if e.1 == item_id then (item_id, quantity) :: rest
    else e :: cart_set_entry rest item_id quantity

/-- Python `cart.pop(item_key, None)`: drop the key if present, no-op
otherwise (app.py lines 372 and 394). -/
def cart_erase (cart : Cart) (item_id : Nat) : Cart :=
  cart.eraseP (fun e => e.1 == item_id)

/-- Route `/cart/add/<int:item_id>` (app.py, add_to_cart): reject a
quantity below 1 leaving the cart untouched, otherwise add cumulatively. -/
def add_to_cart (cart : Cart) (item_id : Nat) (quantity : Int) : Flash × Cart :=
  if quantity < 1 then (.error "Invalid quantity", cart)
  else (.success "Item added to cart!", cart_add_entry cart item_id quantity)

/-- Route `/cart/update/<int:item_id>` (app.py, update_cart): set the
quantity directly when positive, remove the entry otherwise. -/
def update_cart (cart : Cart) (item_id : Nat) (quantity : Int) : Flash × Cart :=
  if quantity > 0 then (.success "Cart updated!", cart_set_entry cart item_id quantity)
  else (.success "Cart updated!", cart_erase cart item_id)

/-- Route `/cart/remove/<int:item_id>` (app.py, remove_from_cart). -/
def remove_from_cart (cart : Cart) (item_id : Nat) : Flash × Cart :=
  (.success "Item removed from cart!", cart_erase cart item_id)

/-- Route `/cart/clear` (app.py, clear_cart): `session[cart] = {}`. -/
def clear_cart : Flash × Cart :=
  (.success "Cart cleared!", [])

/-- First quantity stored under an id, 0 when the id is absent. -/
def cart_qty (cart : Cart) (item_id : Nat) : Int :=
  match cart.find? (fun e => e.1 == item_id) with
  | some e => e.2
  | none => 0

/-- Quantity stored under an id, none when the id is absent. -/
def cart_lookup (cart : Cart) (item_id : Nat) : Option Int :=
  (cart.find? (fun e => e.1 == item_id)).map (fun e => e.2)

/-- One display row of the cart page (the dict built in app.py
lines 293-299). -/
structure CartRow where
  id : Nat
  name : String
  price : ℚ
  quantity : Int
  subtotal : ℚ
deriving DecidableEq

/-- Route `/cart` (app.py, cart): resolve every entry against the catalog,
silently skipping entries whose MenuItem no longer exists, and accumulate
the total of the surviving subtotals. -/
def cart_view (catalog : Catalog) : Cart → List CartRow × ℚ
  | [] => ([], 0)
  | (item_id, quantity) :: rest =>
    let r := cart_view catalog rest
    match MenuItem.query_get catalog item_id with
    | some m =>
      (⟨m.id, m.name, m.price, quantity, m.price * (quantity : ℚ)⟩ :: r.1,
        m.price * (quantity : ℚ) + r.2)
    | none => r

/-- The checkout-staged details held in `session[order_details]`
(app.py lines 458-464). -/
structure OrderDetails where
  customer_name : String
  customer_email : String
  customer_phone : String
  customer_address : String
  total : ℚ
deriving DecidableEq

/-- An order row (models.py, class Order); timestamps are omitted. -/
structure Order where
  id : Nat
  customer_name : String
  customer_email : String
  customer_phone : String
  customer_address : String
  total_amount : ℚ
  status : String
  payment_status : String
  payment_method : String
deriving DecidableEq

/-- An order line-item row (models.py, class OrderItem). -/
structure OrderItem where
  order_id : Nat
  menu_item_id : Nat
  quantity : Int
  price : ℚ
deriving DecidableEq

/-- The line items created by the payment commit loop (app.py lines
515-524): one OrderItem per cart entry whose MenuItem still resolves,
with the price re-read from the catalog at commit time. -/
def commit_items (catalog : Catalog) (oid : Nat) (cart : Cart) : List OrderItem :=
  cart.filterMap (fun e =>
    (MenuItem.query_get catalog e.1).map (fun m =>
      { order_id := oid, menu_item_id := m.id, quantity := e.2, price := m.price }))

/-- Everything the payment route leaves behind on success: the created
order, its line items, the ledger after the commit, and the session cart
and staged details after being cleared. -/
structure PaymentResult where
  order : Order
  order_items : List OrderItem
  orders : List Order
  cart : Cart
  order_details : Option OrderDetails
deriving DecidableEq

/-- Route `/payment` on a valid POST (app.py, payment): guard that staged
details and cart are both present, create the Order (status fixed to
confirmed, payment_status paid only for card, total_amount from the staged
total), create the line items, then clear cart and staged details.
`next_id` is the identity the datastore assigns at `db.session.flush()`. -/
def payment (catalog : Catalog) (orders : List Order) (next_id : Nat)
    (order_details : Option OrderDetails) (cart : Cart) (payment_method : String) :
    Except String PaymentResult :=
  match order_details with
  | none => .error "Please complete checkout first!"
  | some details =>
    if cart.isEmpty then .error "Please complete checkout first!"
    else
      let order : Order :=
        { id := next_id
          customer_name := details.customer_name
          customer_email := details.customer_email
          customer_phone := details.customer_phone
          customer_address := details.customer_address
          total_amount := details.total
          status := "confirmed"
          payment_status := if payment_method == "card" then "paid" else "pending"
          payment_method := payment_method }
      .ok { order := order
            order_items := commit_items catalog next_id cart
            orders := orders ++ [order]
            cart := []
            order_details := none }

/-- Primary-key lookup `Order.query.get(order_id)`. -/
def Order.query_get (orders : List Order) (order_id : Nat) : Option Order :=
  orders.find? (fun o => o.id == order_id)

/-- The fixed enumerated set accepted by the status update
(app.py line 620). -/
def valid_statuses : List String :=
  ["pending", "confirmed", "preparing", "delivered", "cancelled"]

/-- Mutating the order object found by primary key: replace the first row
with that id, leave everything else in place. -/
def set_status_first : List Order → Nat → String → List Order
  | [], _, _ => []
  | o :: rest, order_id, s =>
    if o.id == order_id then { o with status := s } :: rest
    else o :: set_status_first rest order_id s

/-- What the status-update route leaves behind: the ledger, the flashed
message if any, and the order id it redirects to. -/
structure StatusUpdateResult where
  orders : List Order
  flash : Option Flash
  redirect_order_id : Nat
deriving DecidableEq

/-- Route `/order/update/<int:order_id>` (app.py, update_order_status):
404 when the order id is unknown; otherwise store the new status only if
it is in the enumerated set, and redirect to the detail page either way. -/
def update_order_status (orders : List Order) (order_id : Nat) (new_status : String) :
    Except String StatusUpdateResult :=
  match Order.query_get orders order_id with
  | none => .error "404 Not Found"
  | some _ =>
    if valid_statuses.contains new_status then
      .ok { orders := set_status_first orders order_id new_status
            flash := some (.success "Order status updated!")
            redirect_order_id := order_id }
    else
      .ok { orders := orders, flash := none, redirect_order_id := order_id }

/-- Route `/order/<int:order_id>` (app.py, order_detail):
`Order.query.get_or_404`, a hard failure on a missing id. -/
def order_detail (orders : List Order) (order_id : Nat) : Except String Order :=
  match Order.query_get orders order_id with
  | some o => .ok o
  | none => .error "404 Not Found"

/-- Route `/track` on POST with an order id (app.py, track_order): render
the page with the order when found, else with no order and a flashed
not-found message — never a hard failure. -/
def track_order (orders : List Order) (order_id : Nat) : Option Order × Option Flash :=
  match Order.query_get orders order_id with
  | some o => (some o, none)
  | none => (none, some (.error "Order not found!"))

/-- The cart invariant: every stored quantity is at least 1. -/
def CartOk (cart : Cart) : Prop := ∀ e ∈ cart, 1 ≤ e.2

/-! ### Concrete sample data used to instantiate the theorems -/

/-- Staged checkout details for a concrete run (total staged at 24.97). -/
def sample_details : OrderDetails :=
  ⟨"Jo", "jo@example.com", "1234567890", "12 Example Street", 2497/100⟩

/-- The order a card payment on `sample_details` creates. -/
def sample_card_order : Order :=
  ⟨1, "Jo", "jo@example.com", "1234567890", "12 Example Street", 2497/100,
    "confirmed", "paid", "card"⟩

/-- The payment result of a card payment against an empty catalog. -/
def sample_card_result : PaymentResult :=
  ⟨sample_card_order, [], [sample_card_order], [], none⟩

/-- A concrete menu item (Spring Rolls at 5.99, the seeded first row). -/
def sample_menu_item : MenuItem := ⟨1, "Spring Rolls", 599/100, "starters", true⟩

/-- A one-item catalog. -/
def sample_catalog : Catalog := [sample_menu_item]

/-- A cart holding two of item 1 and one of the deleted item 9. -/
def sample_cart : Cart := [(1, 2), (9, 1)]

/-- The order a cash payment on `sample_details` creates. -/
def sample_cash_order : Order :=
  ⟨1, "Jo", "jo@example.com", "1234567890", "12 Example Street", 2497/100,
    "confirmed", "pending", "cash"⟩

/-- The payment result of a cash payment of `sample_cart` against
`sample_catalog`: the entry for the deleted item 9 is dropped. -/
def sample_cash_result : PaymentResult :=
  ⟨sample_cash_order, [⟨1, 1, 2, 599/100⟩], [sample_cash_order], [], none⟩

/-- A one-order ledger. -/
def sample_ledger : List Order := [sample_cash_order]

/-! ### Helper lemmas about the cart operations -/

lemma cart_lookup_add_entry : ∀ (cart : Cart) (item_id : Nat) (q : Int),
    cart_lookup (cart_add_entry cart item_id q) item_id
      = some (cart_qty cart item_id + q)
  | [], item_id, q => by
    simp [cart_lookup, cart_add_entry, cart_qty, List.find?]
  | e :: rest, item_id, q => by
    by_cases h : e.1 = item_id
    · simp [cart_lookup, cart_add_entry, cart_qty, List.find?, h]
    · have hb : (e.1 == item_id) = false := beq_eq_false_iff_ne.mpr h
      simpa [cart_lookup, cart_add_entry, cart_qty, List.find?, hb]
        using cart_lookup_add_entry rest item_id q

lemma cart_qty_eq_lookup (cart : Cart) (item_id : Nat) :
    cart_qty cart item_id = (cart_lookup cart item_id).getD 0 := by
  unfold cart_qty cart_lookup
  cases cart.find? (fun e => e.1 == item_id) <;> simp

lemma cart_lookup_not_mem : ∀ (cart : Cart) (item_id : Nat),
    item_id ∉ cart.map Prod.fst → cart_lookup cart item_id = none
  | [], _, _ => by simp [cart_lookup, List.find?]
  | e :: rest, item_id, h => by
    have h1 : e.1 ≠ item_id := fun he => h (by simp [he.symm])
    have h2 : item_id ∉ rest.map Prod.fst := fun hm => h (by simp [hm])
    have hb : (e.1 == item_id) = false := beq_eq_false_iff_ne.mpr h1
    simpa [cart_lookup, List.find?, hb] using cart_lookup_not_mem rest item_id h2

lemma cart_lookup_set_entry : ∀ (cart : Cart) (item_id : Nat) (q : Int),
    cart_lookup (cart_set_entry cart item_id q) item_id = some q
  | [], item_id, q => by simp [cart_lookup, cart_set_entry, List.find?]
  | e :: rest, item_id, q => by
    by_cases h : e.1 = item_id
    · simp [cart_lookup, cart_set_entry, List.find?, h]
    · have hb : (e.1 == item_id) = false := beq_eq_false_iff_ne.mpr h
      simpa [cart_lookup, cart_set_entry, List.find?, hb]
        using cart_lookup_set_entry rest item_id q

lemma cart_lookup_erase : ∀ (cart : Cart) (item_id : Nat),
    (cart.map Prod.fst).Nodup → cart_lookup (cart_erase cart item_id) item_id = none
  | [], _, _ => by simp [cart_lookup, cart_erase, List.find?]
  | e :: rest, item_id, hnd => by
    rw [List.map_cons] at hnd
    have hrest : (rest.map Prod.fst).Nodup := (List.nodup_cons.mp hnd).2
    by_cases h : e.1 = item_id
    · have hnotin : item_id ∉ rest.map Prod.fst := by
        have := (List.nodup_cons.mp hnd).1
        simpa [h] using this
      simp only [cart_erase, List.eraseP_cons, beq_iff_eq, h, if_pos rfl]
      simpa using cart_lookup_not_mem rest item_id hnotin
    · have hb : (e.1 == item_id) = false := beq_eq_false_iff_ne.mpr h
      have ih := cart_lookup_erase rest item_id hrest
      simp only [cart_erase, List.eraseP_cons, hb, cond_false]
      simpa [cart_lookup, List.find?, hb] using ih

lemma cartOk_add_entry : ∀ (cart : Cart) (item_id : Nat) (q : Int),
    CartOk cart → 1 ≤ q → CartOk (cart_add_entry cart item_id q)
  | [], item_id, q, _, hq => by
    intro e he
    simp [cart_add_entry] at he
    simpa [he] using hq
  | e :: rest, item_id, q, hok, hq => by
    intro x hx
    by_cases h : e.1 = item_id
    · simp [cart_add_entry, h] at hx
      rcases hx with hx | hx
      · have h1 : 1 ≤ e.2 := hok e (by simp)
        have : x.2 = e.2 + q := by rw [hx]
        omega
      · exact hok x (by simp [hx])
    · have hb : (e.1 == item_id) = false := beq_eq_false_iff_ne.mpr h
      simp [cart_add_entry, hb] at hx
      rcases hx with hx | hx
      · exact hok x (by simp [hx])
      · exact cartOk_add_entry rest item_id q (fun y hy => hok y (by simp [hy])) hq x hx

lemma cartOk_set_entry : ∀ (cart : Cart) (item_id : Nat) (q : Int),
    CartOk cart → 1 ≤ q → CartOk (cart_set_entry cart item_id q)
  | [], item_id, q, _, hq => by
    intro e he
    simp [cart_set_entry] at he
    simpa [he] using hq
  | e :: rest, item_id, q, hok, hq => by
    intro x hx
    by_cases h : e.1 = item_id
    · simp [cart_set_entry, h] at hx
      rcases hx with hx | hx
      · simpa [hx] using hq
      · exact hok x (by simp [hx])
    · have hb : (e.1 == item_id) = false := beq_eq_false_iff_ne.mpr h
      simp [cart_set_entry, hb] at hx
      rcases hx with hx | hx
      · exact hok x (by simp [hx])
      · exact cartOk_set_entry rest item_id q (fun y hy => hok y (by simp [hy])) hq x hx

lemma cartOk_erase (cart : Cart) (item_id : Nat) (hok : CartOk cart) :
    CartOk (cart_erase cart item_id) := by
  intro e he
  exact hok e ((List.eraseP_sublist cart).subset he)

/-! ### Claims about the cart operations -/

/-- C4: adding the same item twice with quantities q1, q2 ≥ 1 is cumulative:
the stored quantity becomes the prior quantity plus q1 plus q2, and in
particular q1 + q2 when the item was absent. -/
theorem add_to_cart_cumulative (cart : Cart) (item_id : Nat) (q1 q2 : Int)
    (h1 : 1 ≤ q1) (h2 : 1 ≤ q2) :
    cart_lookup (add_to_cart (add_to_cart cart item_id q1).2 item_id q2).2 item_id
      = some (cart_qty cart item_id + q1 + q2) ∧
    (item_id ∉ cart.map Prod.fst →
      cart_lookup (add_to_cart (add_to_cart cart item_id q1).2 item_id q2).2 item_id
        = some (q1 + q2)) := by
  have hn1 : ¬ q1 < 1 := by omega
  have hn2 : ¬ q2 < 1 := by omega
  have hmain :
      cart_lookup (add_to_cart (add_to_cart cart item_id q1).2 item_id q2).2 item_id
        = some (cart_qty cart item_id + q1 + q2) := by
    simp only [add_to_cart, if_neg hn1, if_neg hn2]
    rw [cart_lookup_add_entry, cart_qty_eq_lookup (cart_add_entry cart item_id q1),
      cart_lookup_add_entry]
    simp [add_assoc]
  refine ⟨hmain, fun habs => ?_⟩
  rw [hmain, cart_qty_eq_lookup, cart_lookup_not_mem cart item_id habs]
  simp

/-- C4 witness: starting from a cart without item 3, add(3, 2) then
add(3, 5) stores quantity 7. -/
theorem add_to_cart_cumulative_witness :
    cart_lookup (add_to_cart (add_to_cart ([(1, 2)] : Cart) 3 2).2 3 5).2 3
      = some (cart_qty ([(1, 2)] : Cart) 3 + 2 + 5) :=
  (add_to_cart_cumulative [(1, 2)] 3 2 5 (by decide) (by decide)).1

/-- C5: add with a non-positive quantity fails with the invalid-quantity
error and leaves the cart exactly unchanged. -/
theorem add_to_cart_nonpositive (cart : Cart) (item_id : Nat) (q : Int)
    (h : q ≤ 0) :
    add_to_cart cart item_id q = (Flash.error "Invalid quantity", cart) := by
  have hq : q < 1 := by omega
  simp [add_to_cart, hq]

/-- C5 witness: add(5, 0) on a one-entry cart is rejected and the cart is
unchanged. -/
theorem add_to_cart_nonpositive_witness :
    add_to_cart ([(1, 2)] : Cart) 5 0 = (Flash.error "Invalid quantity", [(1, 2)]) :=
  add_to_cart_nonpositive [(1, 2)] 5 0 (by decide)

/-- C6: update with q ≥ 1 sets the quantity to exactly q (replacing), and
update with q ≤ 0 removes the entry, leaving the same cart as remove(id). -/
theorem update_cart_replaces_or_removes (cart : Cart) (item_id : Nat) (q : Int)
    (hnd : (cart.map Prod.fst).Nodup) :
    (1 ≤ q → cart_lookup (update_cart cart item_id q).2 item_id = some q) ∧
    (q ≤ 0 →
      (update_cart cart item_id q).2 = (remove_from_cart cart item_id).2 ∧
      cart_lookup (update_cart cart item_id q).2 item_id = none) := by
  constructor
  · intro hq
    have hq' : q > 0 := by omega
    simp only [update_cart, if_pos hq']
    exact cart_lookup_set_entry cart item_id q
  · intro hq
    have hq' : ¬ q > 0 := by omega
    have he : (update_cart cart item_id q).2 = cart_erase cart item_id := by
      simp [update_cart, hq']
    exact ⟨by rw [he]; rfl, by rw [he]; exact cart_lookup_erase cart item_id hnd⟩

/-- C6 witness: update(2, 4) replaces the stored quantity 3 with 4, and
update(2, 0) leaves the same cart as remove(2). -/
theorem update_cart_replaces_or_removes_witness :
    cart_lookup (update_cart ([(2, 3)] : Cart) 2 4).2 2 = some 4 ∧
    (update_cart ([(2, 3)] : Cart) 2 0).2 = (remove_from_cart [(2, 3)] 2).2 :=
  ⟨(update_cart_replaces_or_removes [(2, 3)] 2 4 (by decide)).1 (by decide),
   ((update_cart_replaces_or_removes [(2, 3)] 2 0 (by decide)).2 (by decide)).1⟩

/-- C7: from any cart whose quantities are all ≥ 1, every cart operation
(add with any requested quantity, update, remove, clear) again yields a
cart whose quantities are all ≥ 1. -/
theorem cart_quantity_invariant (cart : Cart) (item_id : Nat) (q : Int)
    (h : CartOk cart) :
    CartOk (add_to_cart cart item_id q).2 ∧
    CartOk (update_cart cart item_id q).2 ∧
    CartOk (remove_from_cart cart item_id).2 ∧
    CartOk clear_cart.2 := by
  refine ⟨?_, ?_, ?_, ?_⟩
  · by_cases hq : q < 1
    · simpa [add_to_cart, hq] using h
    · have hq' : 1 ≤ q := by omega
      simpa [add_to_cart, hq] using cartOk_add_entry cart item_id q h hq'
  · by_cases hq : q > 0
    · have hq' : 1 ≤ q := by omega
      simpa [update_cart, hq] using cartOk_set_entry cart item_id q h hq'
    · simpa [update_cart, hq] using cartOk_erase cart item_id h
  · simpa [remove_from_cart] using cartOk_erase cart item_id h
  · intro e he
    simp [clear_cart] at he

/-- C7 witness: the invariant holds after add(3, -2) on a concrete valid
cart (the rejected add leaves the cart valid). -/
theorem cart_quantity_invariant_witness :
    CartOk (add_to_cart ([(1, 2)] : Cart) 3 (-2)).2 :=
  (cart_quantity_invariant [(1, 2)] 3 (-2)
    (by intro e he; simp only [List.mem_singleton] at he; simp [he])).1

/-! ### Helper lemmas about the cart view -/

lemma MenuItem.query_get_id (catalog : Catalog) (i : Nat) (m : MenuItem)
    (h : MenuItem.query_get catalog i = some m) : m.id = i := by
  unfold MenuItem.query_get at h
  have := List.find?_some h
  simpa using this

lemma cart_view_fst (catalog : Catalog) : ∀ (cart : Cart),
    (cart_view catalog cart).1
      = cart.filterMap (fun e =>
          (MenuItem.query_get catalog e.1).map (fun m =>
            ⟨m.id, m.name, m.price, e.2, m.price * (e.2 : ℚ)⟩))
  | [] => by simp [cart_view]
  | (item_id, quantity) :: rest => by
    cases hq : MenuItem.query_get catalog item_id with
    | none => simpa [cart_view, hq] using cart_view_fst catalog rest
    | some m => simpa [cart_view, hq] using cart_view_fst catalog rest

lemma cart_view_snd_sum (catalog : Catalog) : ∀ (cart : Cart),
    (cart_view catalog cart).2
      = ((cart_view catalog cart).1.map (fun r => r.subtotal)).sum
  | [] => by simp [cart_view]
  | (item_id, quantity) :: rest => by
    cases hq : MenuItem.query_get catalog item_id with
    | none => simpa [cart_view, hq] using cart_view_snd_sum catalog rest
    | some m => simpa [cart_view, hq] using cart_view_snd_sum catalog rest

lemma cart_view_rows_resolve (catalog : Catalog) : ∀ (cart : Cart),
    ∀ row ∈ (cart_view catalog cart).1,
      ∃ m, MenuItem.query_get catalog row.id = some m ∧
        row.price = m.price ∧ row.subtotal = m.price * (row.quantity : ℚ)
  | [] => by simp [cart_view]
  | (item_id, quantity) :: rest => by
    intro row hrow
    cases hq : MenuItem.query_get catalog item_id with
    | none =>
      simp only [cart_view, hq] at hrow
      exact cart_view_rows_resolve catalog rest row hrow
    | some m =>
      simp only [cart_view, hq, List.mem_cons] at hrow
      rcases hrow with hrow | hrow
      · refine ⟨m, ?_, ?_, ?_⟩
        · rw [hrow]
          simpa [MenuItem.query_get_id catalog item_id m hq] using hq
        · rw [hrow]
        · rw [hrow]
      · exact cart_view_rows_resolve catalog rest row hrow

/-- C3: the cart view lists exactly the cart entries whose MenuItem still
exists (in cart order, each row carrying the current catalog price and
subtotal = price × quantity), its total is the sum of the listed
subtotals, and every listed row resolves against the catalog — so entries
referencing deleted MenuItems appear in neither the list nor the total. -/
theorem cart_view_spec (catalog : Catalog) (cart : Cart) :
    (cart_view catalog cart).1
      = cart.filterMap (fun e =>
          (MenuItem.query_get catalog e.1).map (fun m =>
            ⟨m.id, m.name, m.price, e.2, m.price * (e.2 : ℚ)⟩)) ∧
    (cart_view catalog cart).2
      = ((cart_view catalog cart).1.map (fun r => r.subtotal)).sum ∧
    ∀ row ∈ (cart_view catalog cart).1,
      ∃ m, MenuItem.query_get catalog row.id = some m ∧
        row.price = m.price ∧ row.subtotal = m.price * (row.quantity : ℚ) :=
  ⟨cart_view_fst catalog cart, cart_view_snd_sum catalog cart,
    cart_view_rows_resolve catalog cart⟩

/-! ### Helper lemmas about the commit line items -/

lemma commit_items_filter_not_mem (catalog : Catalog) (oid : Nat) :
    ∀ (cart : Cart) (item_id : Nat), item_id ∉ cart.map Prod.fst →
      (commit_items catalog oid cart).filter (fun oi => oi.menu_item_id == item_id) = []
  | [], _, _ => by simp [commit_items]
  | (a, q) :: rest, item_id, h => by
    have ha : a ≠ item_id := fun he => h (by simp [he])
    have h2 : item_id ∉ rest.map Prod.fst := fun hm => h (by simp [hm])
    cases hq : MenuItem.query_get catalog a with
    | none =>
      simpa [commit_items, hq]
        using commit_items_filter_not_mem catalog oid rest item_id h2
    | some m =>
      have hm : m.id = a := MenuItem.query_get_id catalog a m hq
      have hb : (m.id == item_id) = false := beq_eq_false_iff_ne.mpr (hm ▸ ha)
      simpa [commit_items, hq, hb]
        using commit_items_filter_not_mem catalog oid rest item_id h2

lemma commit_items_filter_none (catalog : Catalog) (oid : Nat) :
    ∀ (cart : Cart) (item_id : Nat), MenuItem.query_get catalog item_id = none →
      (commit_items catalog oid cart).filter (fun oi => oi.menu_item_id == item_id) = []
  | [], _, _ => by simp [commit_items]
  | (a, q) :: rest, item_id, h => by
    cases hq : MenuItem.query_get catalog a with
    | none =>
      simpa [commit_items, hq]
        using commit_items_filter_none catalog oid rest item_id h
    | some m =>
      have hm : m.id = a := MenuItem.query_get_id catalog a m hq
      have ha : a ≠ item_id := by
        intro he
        rw [he] at hq
        rw [h] at hq
        exact Option.noConfusion hq
      have hb : (m.id == item_id) = false := beq_eq_false_iff_ne.mpr (hm ▸ ha)
      simpa [commit_items, hq, hb]
        using commit_items_filter_none catalog oid rest item_id h

lemma commit_items_filter_single (catalog : Catalog) (oid : Nat) :
    ∀ (cart : Cart) (item_id : Nat) (q : Int) (m : MenuItem),
      (cart.map Prod.fst).Nodup → (item_id, q) ∈ cart →
      MenuItem.query_get catalog item_id = some m →
      (commit_items catalog oid cart).filter (fun oi => oi.menu_item_id == item_id)
        = [{ order_id := oid, menu_item_id := item_id, quantity := q, price := m.price }]
  | [], _, _, _, _, hmem, _ => absurd hmem (List.not_mem_nil _)
  | (a, q') :: rest, item_id, q, m, hnd, hmem, h => by
    rw [List.map_cons] at hnd
    obtain ⟨hna, hrest⟩ := List.nodup_cons.mp hnd
    rcases List.mem_cons.mp hmem with heq | hmem'
    · injection heq with h1 h2
      subst h1
      subst h2
      have hm : m.id = item_id := MenuItem.query_get_id catalog item_id m h
      have hb : (m.id == item_id) = true := beq_iff_eq.mpr hm
      have htail := commit_items_filter_not_mem catalog oid rest item_id hna
      have hcons : commit_items catalog oid ((item_id, q) :: rest)
          = { order_id := oid, menu_item_id := m.id, quantity := q, price := m.price }
            :: commit_items catalog oid rest := by
        simp [commit_items, h]
      rw [hcons, List.filter_cons]
      simp only [hb, if_true]
      rw [htail, hm]
    · have hmem_keys : item_id ∈ rest.map Prod.fst :=
        List.mem_map_of_mem Prod.fst hmem'
      have ha : a ≠ item_id := fun he => hna (he ▸ hmem_keys)
      cases hq : MenuItem.query_get catalog a with
      | none =>
        simpa [commit_items, hq]
          using commit_items_filter_single catalog oid rest item_id q m hrest hmem' h
      | some m' =>
        have hm' : m'.id = a := MenuItem.query_get_id catalog a m' hq
        have hb : (m'.id == item_id) = false := beq_eq_false_iff_ne.mpr (hm' ▸ ha)
        simpa [commit_items, hq, hb]
          using commit_items_filter_single catalog oid rest item_id q m hrest hmem' h

/-! ### Claims about the payment commit -/

/-- C1: on a successful payment commit, each cart pair whose MenuItem
still resolves yields exactly one OrderItem carrying that quantity and
the MenuItem price current at commit time, each pair whose MenuItem is
gone yields no line item at all, and the order total_amount is exactly
the staged total, with no re-adjustment for dropped pairs. -/
theorem payment_line_items (catalog : Catalog) (orders : List Order) (next_id : Nat)
    (details : OrderDetails) (cart : Cart) (payment_method : String) (r : PaymentResult)
    (hnd : (cart.map Prod.fst).Nodup)
    (h : payment catalog orders next_id (some details) cart payment_method = Except.ok r) :
    (∀ item_id q, (item_id, q) ∈ cart →
      (∀ m, MenuItem.query_get catalog item_id = some m →
        r.order_items.filter (fun oi => oi.menu_item_id == item_id)
          = [{ order_id := r.order.id, menu_item_id := item_id, quantity := q,
               price := m.price }]) ∧
      (MenuItem.query_get catalog item_id = none →
        r.order_items.filter (fun oi => oi.menu_item_id == item_id) = [])) ∧
    r.order.total_amount = details.total := by
  by_cases hemp : cart.isEmpty = true
  · simp [payment, hemp] at h
  · simp only [payment, if_neg hemp, Except.ok.injEq] at h
    subst h
    refine ⟨fun item_id q hmem => ⟨fun m hm => ?_, fun hnone => ?_⟩, rfl⟩
    · simpa using commit_items_filter_single catalog next_id cart item_id q m hnd hmem hm
    · simpa using commit_items_filter_none catalog next_id cart item_id hnone

/-- C1 witness: committing the sample cart (two of item 1, one of the
deleted item 9) against the one-item catalog yields exactly one line item
for item 1 at the current price, none for item 9, and total_amount equal
to the staged total 24.97 — which differs from the surviving line-item
sum 11.98. -/
theorem payment_line_items_witness :
    sample_cash_result.order_items.filter (fun oi => oi.menu_item_id == 1)
      = [{ order_id := sample_cash_result.order.id, menu_item_id := 1, quantity := 2,
           price := sample_menu_item.price }] ∧
    sample_cash_result.order_items.filter (fun oi => oi.menu_item_id == 9) = [] ∧
    sample_cash_result.order.total_amount = sample_details.total :=
  have h := payment_line_items sample_catalog [] 1 sample_details sample_cart "cash"
    sample_cash_result (by decide) (by rfl)
  ⟨(h.1 1 2 (by simp [sample_cart])).1 sample_menu_item (by rfl),
   (h.1 9 1 (by simp [sample_cart])).2 (by rfl),
   h.2⟩

/-- C2: a successful payment commit appends exactly one order to the
ledger, with status confirmed regardless of payment method, payment_status
paid for card and pending otherwise, and leaves the session cart and the
staged details cleared. -/
theorem payment_commit_effects (catalog : Catalog) (orders : List Order) (next_id : Nat)
    (order_details : Option OrderDetails) (cart : Cart) (payment_method : String)
    (r : PaymentResult)
    (h : payment catalog orders next_id order_details cart payment_method = Except.ok r) :
    r.orders = orders ++ [r.order] ∧
    r.order.status = "confirmed" ∧
    (payment_method = "card" → r.order.payment_status = "paid") ∧
    (payment_method ≠ "card" → r.order.payment_status = "pending") ∧
    r.cart = [] ∧
    r.order_details = none := by
  cases order_details with
  | none => simp [payment] at h
  | some details =>
    by_cases hemp : cart.isEmpty = true
    · simp [payment, hemp] at h
    · simp only [payment, if_neg hemp, Except.ok.injEq] at h
      subst h
      refine ⟨rfl, rfl, fun hc => ?_, fun hc => ?_, rfl, rfl⟩
      · subst hc
        simp
      · have hb : (payment_method == "card") = false := beq_eq_false_iff_ne.mpr hc
        simp [hb]

/-- C2 witness: a concrete card payment creates exactly one confirmed
order marked paid and clears the cart and staged details. -/
theorem payment_commit_effects_witness :
    sample_card_result.orders = [] ++ [sample_card_result.order] ∧
    sample_card_result.order.status = "confirmed" ∧
    ("card" = "card" → sample_card_result.order.payment_status = "paid") ∧
    ("card" ≠ "card" → sample_card_result.order.payment_status = "pending") ∧
    sample_card_result.cart = [] ∧
    sample_card_result.order_details = none :=
  payment_commit_effects [] [] 1 (some sample_details) [(1, 2)] "card"
    sample_card_result (by rfl)

/-! ### Helper lemma about the status update -/

lemma Order.query_get_set_status_first :
    ∀ (orders : List Order) (order_id : Nat) (s : String) (o : Order),
      Order.query_get orders order_id = some o →
      Order.query_get (set_status_first orders order_id s) order_id
        = some { o with status := s }
  | [], _, _, _, h => by simp [Order.query_get, List.find?] at h
  | o' :: rest, order_id, s, o, h => by
    by_cases hid : o'.id = order_id
    · have hb : (o'.id == order_id) = true := beq_iff_eq.mpr hid
      have ho : o' = o := by simpa [Order.query_get, List.find?, hb] using h
      subst ho
      simp [set_status_first, Order.query_get, List.find?, hb]
    · have hb : (o'.id == order_id) = false := beq_eq_false_iff_ne.mpr hid
      have h' : Order.query_get rest order_id = some o := by
        simpa [Order.query_get, List.find?, hb] using h
      simpa [set_status_first, Order.query_get, List.find?, hb]
        using Order.query_get_set_status_first rest order_id s o h'

/-! ### Claims about order status update and lookup -/

/-- C8: updating an existing order with a status outside the enumerated
set leaves the ledger unchanged, flashes nothing, and still redirects to
the detail page; a status inside the set is stored, from any current
status. -/
theorem update_order_status_validation (orders : List Order) (order_id : Nat)
    (new_status : String) (o : Order)
    (h : Order.query_get orders order_id = some o) :
    (new_status ∉ valid_statuses →
      update_order_status orders order_id new_status
        = Except.ok { orders := orders, flash := none, redirect_order_id := order_id }) ∧
    (new_status ∈ valid_statuses →
      update_order_status orders order_id new_status
        = Except.ok { orders := set_status_first orders order_id new_status,
                      flash := some (.success "Order status updated!"),
                      redirect_order_id := order_id } ∧
      Order.query_get (set_status_first orders order_id new_status) order_id
        = some { o with status := new_status }) := by
  constructor
  · intro hnot
    simp [update_order_status, h, hnot]
  · intro hmem
    exact ⟨by simp [update_order_status, h, hmem],
      Order.query_get_set_status_first orders order_id new_status o h⟩

/-- C8 witness: on the one-order ledger, the out-of-set value shipped is
silently ignored while preparing is stored. -/
theorem update_order_status_validation_witness :
    update_order_status sample_ledger 1 "shipped"
      = Except.ok { orders := sample_ledger, flash := none, redirect_order_id := 1 } ∧
    Order.query_get (set_status_first sample_ledger 1 "preparing") 1
      = some { sample_cash_order with status := "preparing" } :=
  ⟨(update_order_status_validation sample_ledger 1 "shipped" sample_cash_order
      (by rfl)).1 (by decide),
   ((update_order_status_validation sample_ledger 1 "preparing" sample_cash_order
      (by rfl)).2 (by decide)).2⟩

/-- C9: for an order id absent from the ledger, the tracking lookup
returns no order together with a flashed not-found message — a total
result, not a failure — while the admin detail lookup fails hard. -/
theorem track_order_not_found (orders : List Order) (order_id : Nat)
    (h : Order.query_get orders order_id = none) :
    track_order orders order_id = (none, some (Flash.error "Order not found!")) ∧
    order_detail orders order_id = Except.error "404 Not Found" := by
  simp [track_order, order_detail, h]

/-- C9 witness: tracking order 7 on an empty ledger yields the soft
not-found page while the detail route 404s. -/
theorem track_order_not_found_witness :
    track_order ([] : List Order) 7 = (none, some (Flash.error "Order not found!")) ∧
    order_detail ([] : List Order) 7 = Except.error "404 Not Found" :=
  track_order_not_found [] 7 (by rfl)

/-! ### Helper lemma for phantom cart entries -/

lemma cart_view_add_entry_phantom (catalog : Catalog) (item_id : Nat)
    (h : MenuItem.query_get catalog item_id = none) :
    ∀ (cart : Cart) (q : Int),
      cart_view catalog (cart_add_entry cart item_id q) = cart_view catalog cart
  | [], q => by simp [cart_add_entry, cart_view, h]
  | (a, q') :: rest, q => by
    by_cases ha : a = item_id
    · subst ha
      simp [cart_add_entry, cart_view, h]
    · have hb : (a == item_id) = false := beq_eq_false_iff_ne.mpr ha
      have ih := cart_view_add_entry_phantom catalog item_id h rest q
      cases hqa : MenuItem.query_get catalog a with
      | none => simpa [cart_add_entry, hb, cart_view, hqa] using ih
      | some m => simp [cart_add_entry, hb, cart_view, hqa, ih]

/-- C10: the cart add operation never consults the catalog: adding any
item id with quantity ≥ 1 succeeds and stores the entry even when no
MenuItem with that id exists, and such a phantom entry contributes no row
and no amount to the cart view and yields no OrderItem on a successful
payment commit. -/
theorem add_to_cart_ignores_catalog (catalog : Catalog) (cart : Cart)
    (item_id : Nat) (q : Int)
    (h1 : 1 ≤ q) (h2 : MenuItem.query_get catalog item_id = none) :
    (add_to_cart cart item_id q).1 = Flash.success "Item added to cart!" ∧
    cart_lookup (add_to_cart cart item_id q).2 item_id
      = some (cart_qty cart item_id + q) ∧
    cart_view catalog (add_to_cart cart item_id q).2 = cart_view catalog cart ∧
    (∀ row ∈ (cart_view catalog (add_to_cart cart item_id q).2).1, row.id ≠ item_id) ∧
    ∀ (orders : List Order) (next_id : Nat) (details : OrderDetails)
      (payment_method : String) (r : PaymentResult),
      payment catalog orders next_id (some details) (add_to_cart cart item_id q).2
          payment_method = Except.ok r →
      r.order_items.filter (fun oi => oi.menu_item_id == item_id) = [] := by
  have hq : ¬ q < 1 := by omega
  have hsnd : (add_to_cart cart item_id q).2 = cart_add_entry cart item_id q := by
    simp [add_to_cart, hq]
  refine ⟨by simp [add_to_cart, hq], ?_, ?_, ?_, ?_⟩
  · rw [hsnd]
    exact cart_lookup_add_entry cart item_id q
  · rw [hsnd]
    exact cart_view_add_entry_phantom catalog item_id h2 cart q
  · intro row hrow he
    obtain ⟨m, hm, -, -⟩ := cart_view_rows_resolve catalog _ row hrow
    rw [he, h2] at hm
    exact Option.noConfusion hm
  · intro orders next_id details payment_method r hpay
    by_cases hemp : (add_to_cart cart item_id q).2.isEmpty = true
    · simp [payment, hemp] at hpay
    · simp only [payment, if_neg hemp, Except.ok.injEq] at hpay
      subst hpay
      simpa using commit_items_filter_none catalog next_id _ item_id h2

/-- C10 witness: adding three of the deleted item 9 succeeds, and the
phantom entry changes neither the rendered rows nor the total of the
sample cart view. -/
theorem add_to_cart_ignores_catalog_witness :
    cart_lookup (add_to_cart ([(1, 2)] : Cart) 9 3).2 9
      = some (cart_qty ([(1, 2)] : Cart) 9 + 3) ∧
    cart_view sample_catalog (add_to_cart ([(1, 2)] : Cart) 9 3).2
      = cart_view sample_catalog [(1, 2)] :=
  have h := add_to_cart_ignores_catalog sample_catalog [(1, 2)] 9 3 (by decide) (by rfl)
  ⟨h.2.1, h.2.2.1⟩

end CloudKitchen
